import Mathlib

/-!
Verification development for the job-queue and worker-lifecycle subsystem.

The definitions below are a shallow embedding of the JavaScript sources:
  . src/whatsapp-worker/src/services/queueService.js   (class QueueService)
  . src/whatsapp-worker/index.js                       (class WhatsAppWorker)
  . src/services/queueService.js                       (root class QueueService)
  . the WorkerService module (queue wrappers and batch enqueue)
Stateful methods become explicit state-passing functions; the job data
payload and the processor functions are type parameters; fallible calls
into the backend are modelled by explicit outcome parameters standing for
the awaited promise of the backend client.
-/

/-- Backoff policy object carried in job options (the source builds
objects of shape with a type string and a delay in milliseconds). -/
structure Backoff where
  type : String
  delay : Nat
deriving DecidableEq, Repr

/-- A JavaScript job-options object: every field may be absent.  Absent is
`none`; JS object spread only copies fields that are present. -/
structure JsOptions where
  priority : Option Int := none
  delay : Option Nat := none
  attempts : Option Nat := none
  backoff : Option Backoff := none
  removeOnComplete : Option Nat := none
  removeOnFail : Option Nat := none
deriving DecidableEq, Repr

/-- JS object spread of two options objects, as in the source expression
with defaults first and caller options second: a field present in
`options` wins, an absent field falls back to `base`. -/
def JsOptions.spread (base options : JsOptions) : JsOptions where
  priority := options.priority.orElse fun _ => base.priority
  delay := options.delay.orElse fun _ => base.delay
  attempts := options.attempts.orElse fun _ => base.attempts
  backoff := options.backoff.orElse fun _ => base.backoff
  removeOnComplete := options.removeOnComplete.orElse fun _ => base.removeOnComplete
  removeOnFail := options.removeOnFail.orElse fun _ => base.removeOnFail

/-- JS truthiness fallback on a possibly-absent number, as in the source
expression using the or-operator with a numeric default: absent and zero
both fall to the default (0 is falsy in JS). -/
def jsOrInt (o : Option Int) (d : Int) : Int :=
  match o with
  | none => d
  | some v => if v = 0 then d else v

/-- Same JS truthiness fallback for a natural-number option field. -/
def jsOrNat (o : Option Nat) (d : Nat) : Nat :=
  match o with
  | none => d
  | some v => if v = 0 then d else v

/-- config.worker.maxRetries (default 3 in src/whatsapp-worker/src/config). -/
def config.worker.maxRetries : Nat := 3

/-- config.worker.retryDelay (default 5000 in src/whatsapp-worker/src/config). -/
def config.worker.retryDelay : Nat := 5000

/-- config.worker.concurrency (default 5 in src/whatsapp-worker/src/config). -/
def config.worker.concurrency : Nat := 5

/-- config.queue.name (default in src/whatsapp-worker/src/config). -/
def config.queue.name : String := "whatsapp-jobs"

/-- Exact-key association-list lookup, the JS object property access used
for the queue registry and the processor map. -/
def assocLookup {β : Type} (l : List (String × β)) (k : String) : Option β :=
  match l with
  | [] => none
  | (k1, v) :: t => if k1 = k then some v else assocLookup t k

/-- JS Map.set semantics for a string-keyed association list: replace the
entry when the key is present, append it when it is not. -/
def mapSet {β : Type} (l : List (String × β)) (k : String) (v : β) : List (String × β) :=
  match l with
  | [] => [(k, v)]
  | (k1, v1) :: t => if k1 = k then (k, v) :: t else (k1, v1) :: mapSet t k v

/-- A queue handle created by the backend constructor.  `creationIndex`
gives each created handle its identity; `listenerWirings` counts how many
times event observers were attached to this handle. -/
structure QueueHandle where
  name : String
  creationIndex : Nat
  listenerWirings : Nat
deriving DecidableEq, Repr

/-- A processor registration entry stored in the processors Map by
processQueue: the processor function together with its concurrency. -/
structure ProcEntry (P : Type) where
  processor : P
  concurrency : Nat
deriving DecidableEq, Repr

/-- A job recorded in the backend by a successful queue.add call. -/
structure EnqueuedJob (D : Type) where
  queueName : String
  jobType : String
  data : D
  options : JsOptions
  jobId : Nat
deriving DecidableEq, Repr

/-- The uniform result object the service methods return to callers:
either success with a job id, or failure with an error message.  The
methods never throw: every throw inside is caught and converted. -/
structure JsResult where
  success : Bool
  jobId : Option Nat := none
  error : Option String := none
deriving DecidableEq, Repr

namespace QueueService

/-- State of the whatsapp-worker QueueService instance: the memoized queue
registry, the connection flags (isConnected is set by the Redis event handlers of this service itself; redisReady mirrors the isReady property of the client library, an independent piece of external state), the processors Map,
the registrations issued against the backend, and the jobs the backend
has accepted.  `P` is the type of processor functions, `D` of job data. -/
structure State (P : Type) (D : Type) where
  queues : List (String × QueueHandle) := []
  isConnected : Bool := false
  redisReady : Bool := false
  nextQueueIndex : Nat := 0
  processors : List (String × ProcEntry P) := []
  backendRegs : List (String × String) := []
  jobs : List (EnqueuedJob D) := []
  nextJobId : Nat := 0
deriving DecidableEq, Repr

variable {P D : Type}

/-- setupQueueEventListeners: attaches the completed, failed, stalled,
progress, active, waiting and error observers to a queue handle once. -/
def setupQueueEventListeners (q : QueueHandle) : QueueHandle :=
  { q with listenerWirings := q.listenerWirings + 1 }

/-- getQueue: the memoized lookup-or-create of the source.  When the name
is absent from the registry it constructs a new backend queue, wires its
event listeners, and stores it under the name; otherwise it returns the
stored handle unchanged. -/
def getQueue (s : State P D) (queueName : String) : QueueHandle × State P D :=
  match assocLookup s.queues queueName with
  | some q => (q, s)
  | none =>
      let q := setupQueueEventListeners
        { name := queueName, creationIndex := s.nextQueueIndex, listenerWirings := 0 }
      (q, { s with queues := (queueName, q) :: s.queues,
                   nextQueueIndex := s.nextQueueIndex + 1 })

/-- isHealthy: the conjunction of the isConnected flag of the service and
the isReady property of the Redis client. -/
def isHealthy (s : State P D) : Bool :=
  s.isConnected && s.redisReady

/-- The defaultOptions object built inside addJob. -/
def addJobDefaultOptions : JsOptions :=
  { priority := some 0, delay := some 0,
    attempts := some config.worker.maxRetries,
    backoff := some { type := "exponential", delay := config.worker.retryDelay } }

/-- addJob: inside a try block it throws when isConnected is false, gets
or creates the queue, spreads the caller options over the defaults, and
awaits queue.add; the catch converts any throw (the connectivity throw or
a backend rejection, modelled by `backendFailure`) into a failure result,
so the method itself never throws. -/
def addJob (s : State P D) (queueName jobType : String) (data : D)
    (options : JsOptions) (backendFailure : Option String) :
    JsResult × State P D :=
  if s.isConnected = false then
    ({ success := false, error := some ("Redis is not connected") }, s)
  else
    let s1 := (getQueue s queueName).2
    let jobOptions := JsOptions.spread addJobDefaultOptions options
    match backendFailure with
    | some msg => ({ success := false, error := some msg }, s1)
    | none =>
        ({ success := true, jobId := some s1.nextJobId },
         { s1 with
             jobs := s1.jobs ++
               [{ queueName := queueName, jobType := jobType, data := data,
                  options := jobOptions, jobId := s1.nextJobId }],
             nextJobId := s1.nextJobId + 1 })

/-- processQueue: gets or creates the queue, stores the processor entry in
the processors Map under the key built from the queue name and job type,
and issues a queue.process registration against the backend. -/
def processQueue (s : State P D) (queueName jobType : String)
    (processor : P) (concurrency : Nat) : State P D :=
  let s1 := (getQueue s queueName).2
  let processorKey := queueName ++ ":" ++ jobType
  { s1 with
      processors := mapSet s1.processors processorKey
        { processor := processor, concurrency := concurrency },
      backendRegs := s1.backendRegs ++ [(queueName, jobType)] }

/-- The async closure processQueue hands to queue.process: it invokes the
registered processor on the job, returns its result, and on a throw logs
and rethrows the same error.  Processor outcomes are values of an Except
type: ok is a returned result, error a thrown error. -/
def processWrapper {J E R : Type} (processor : J → Except E R) (job : J) :
    Except E R :=
  match processor job with
  | Except.ok result => Except.ok result
  | Except.error e => Except.error e

end QueueService

namespace WhatsAppWorker

/-- State of the WhatsAppWorker instance: the constructor sets isRunning
to false; initialize sets it true only after every fatal step succeeded;
shutdown sets it false. -/
structure WorkerState where
  isRunning : Bool
deriving DecidableEq, Repr

/-- The externally observable calls the worker makes on its collaborators,
in the order the source performs them. -/
inductive WorkerAction where
  | testConnection
  | queueInit
  | apiStart
  | whatsappInit
  | setupProcessors
  | registerWithWebservice
  | startPeriodicTasks
  | notifyShutdown
  | apiStop
  | whatsappShutdown
  | queueShutdown
deriving DecidableEq, Repr

/-- Which of the awaited collaborator calls inside the shutdown try block
throw.  The body of shutdown is one try block with one catch: the steps
run in order until the first throwing one, the catch logs and returns. -/
structure ShutdownEnv where
  notifyFails : Bool := false
  apiStopFails : Bool := false
  whatsappShutdownFails : Bool := false
  queueShutdownFails : Bool := false
deriving DecidableEq, Repr

/-- shutdown: returns immediately when isRunning is already false; else
sets isRunning false before the try block and performs notify, API stop,
bot shutdown and queue shutdown in order, stopping after the first one
that throws; the catch swallows the error, so shutdown never throws.  The
returned list is the executed collaborator calls. -/
def shutdown (env : ShutdownEnv) (w : WorkerState) :
    WorkerState × List WorkerAction :=
  if w.isRunning = false then (w, [])
  else
    ({ isRunning := false },
     if env.notifyFails then [WorkerAction.notifyShutdown]
     else if env.apiStopFails then
       [WorkerAction.notifyShutdown, WorkerAction.apiStop]
     else if env.whatsappShutdownFails then
       [WorkerAction.notifyShutdown, WorkerAction.apiStop,
        WorkerAction.whatsappShutdown]
     else
       [WorkerAction.notifyShutdown, WorkerAction.apiStop,
        WorkerAction.whatsappShutdown, WorkerAction.queueShutdown])

/-- Outcomes of the awaited initialization steps: the webservice
reachability probe, queueService.initialize, apiServer.start and
whatsappBot.initialize, plus the behaviour of the collaborators should
shutdown run from the catch. -/
structure InitEnv where
  webserviceConnected : Bool
  queueInitialized : Bool
  apiStarted : Bool
  whatsappInitialized : Bool
  sd : ShutdownEnv := {}
deriving DecidableEq, Repr

/-- The initialize method of WhatsAppWorker: probes the webservice (a
false result only logs a warning and continues), then initializes the
queue service, starts the API server and initializes the bot, each false
result throwing into the catch, which awaits shutdown and returns false;
on success it registers processors, sets isRunning true, registers with
the webservice only when the probe succeeded, starts the periodic tasks
and returns true.  Returns the success flag, the final worker state and
the executed collaborator calls. -/
def initWorker (env : InitEnv) (w : WorkerState) :
    Bool × WorkerState × List WorkerAction :=
  let t2 := [WorkerAction.testConnection, WorkerAction.queueInit]
  if env.queueInitialized = false then
    let r := shutdown env.sd w
    (false, r.1, t2 ++ r.2)
  else
    let t3 := t2 ++ [WorkerAction.apiStart]
    if env.apiStarted = false then
      let r := shutdown env.sd w
      (false, r.1, t3 ++ r.2)
    else
      let t4 := t3 ++ [WorkerAction.whatsappInit]
      if env.whatsappInitialized = false then
        let r := shutdown env.sd w
        (false, r.1, t4 ++ r.2)
      else
        let t5 := t4 ++ [WorkerAction.setupProcessors]
        let t6 := if env.webserviceConnected then
          t5 ++ [WorkerAction.registerWithWebservice] else t5
        (true, { isRunning := true }, t6 ++ [WorkerAction.startPeriodicTasks])

end WhatsAppWorker

namespace RootQueueService

/-- The defaultOptions object built inside the root addJob
(src/services/queueService.js): three attempts, exponential backoff with
base delay 2000, removeOnComplete 10, removeOnFail 5; no default priority
or delay. -/
def addJobDefaultOptions : JsOptions :=
  { attempts := some 3,
    backoff := some { type := "exponential", delay := 2000 },
    removeOnComplete := some 10, removeOnFail := some 5 }

/-- The root addJob: spreads the caller options over the defaults and
awaits queue.add, whose outcome is the `backendAdd` parameter (a job id,
or a thrown error message); the catch converts a throw into a failure
result, so the method never throws. -/
def addJob {D : Type} (backendAdd : String → String → D → JsOptions → Except String Nat)
    (queueName jobType : String) (data : D) (options : JsOptions) : JsResult :=
  let jobOptions := JsOptions.spread addJobDefaultOptions options
  match backendAdd queueName jobType data jobOptions with
  | Except.ok jobId => { success := true, jobId := some jobId }
  | Except.error e => { success := false, error := some e }

end RootQueueService

namespace WorkerService

variable {D : Type}

/-- The default queue name of the WorkerService module. -/
def defaultQueue : String := "background-tasks"

/-- The options object queueDataProcessing builds: priority defaulting to
0 and delay to 0 through JS truthiness, then the caller options spread
last so any field the caller supplied wins. -/
def dataProcessingOptions (options : JsOptions) : JsOptions :=
  JsOptions.spread
    { priority := some (jsOrInt options.priority 0),
      delay := some (jsOrNat options.delay 0) } options

/-- The options object queueEmailSend builds (priority default 5). -/
def emailSendOptions (options : JsOptions) : JsOptions :=
  JsOptions.spread
    { priority := some (jsOrInt options.priority 5),
      delay := some (jsOrNat options.delay 0) } options

/-- The options object queueFileProcessing builds (priority default 3). -/
def fileProcessingOptions (options : JsOptions) : JsOptions :=
  JsOptions.spread
    { priority := some (jsOrInt options.priority 3),
      delay := some (jsOrNat options.delay 0) } options

/-- The options object queueWebhookSend builds (priority default 7). -/
def webhookSendOptions (options : JsOptions) : JsOptions :=
  JsOptions.spread
    { priority := some (jsOrInt options.priority 7),
      delay := some (jsOrNat options.delay 0) } options

/-- The options object queueCleanupTask builds (priority default 1). -/
def cleanupTaskOptions (options : JsOptions) : JsOptions :=
  JsOptions.spread
    { priority := some (jsOrInt options.priority 1),
      delay := some (jsOrNat options.delay 0) } options

/-- queueDataProcessing: forwards to the root addJob on the default queue
with job type process-data and the built options. -/
def queueDataProcessing (backendAdd : String → String → D → JsOptions → Except String Nat)
    (data : D) (options : JsOptions) : JsResult :=
  RootQueueService.addJob backendAdd defaultQueue ("process-data") data
    (dataProcessingOptions options)

/-- queueEmailSend: forwards to the root addJob with job type send-email. -/
def queueEmailSend (backendAdd : String → String → D → JsOptions → Except String Nat)
    (data : D) (options : JsOptions) : JsResult :=
  RootQueueService.addJob backendAdd defaultQueue ("send-email") data
    (emailSendOptions options)

/-- queueFileProcessing: forwards with job type process-file. -/
def queueFileProcessing (backendAdd : String → String → D → JsOptions → Except String Nat)
    (data : D) (options : JsOptions) : JsResult :=
  RootQueueService.addJob backendAdd defaultQueue ("process-file") data
    (fileProcessingOptions options)

/-- queueWebhookSend: forwards with job type send-webhook. -/
def queueWebhookSend (backendAdd : String → String → D → JsOptions → Except String Nat)
    (data : D) (options : JsOptions) : JsResult :=
  RootQueueService.addJob backendAdd defaultQueue ("send-webhook") data
    (webhookSendOptions options)

/-- queueCleanupTask: forwards with job type cleanup-task. -/
def queueCleanupTask (backendAdd : String → String → D → JsOptions → Except String Nat)
    (data : D) (options : JsOptions) : JsResult :=
  RootQueueService.addJob backendAdd defaultQueue ("cleanup-task") data
    (cleanupTaskOptions options)

/-- One item of the ordered list queueBatchJobs receives. -/
structure BatchJob (D : Type) where
  type : String
  data : D
  options : JsOptions
deriving DecidableEq, Repr

/-- The summary object queueBatchJobs returns. -/
structure BatchSummary where
  success : Bool
  results : List (String × JsResult)
  totalJobs : Nat
  successfulJobs : Nat
deriving DecidableEq, Repr

/-- The switch statement inside the queueBatchJobs loop: dispatches a
single item on its type string to the matching queue wrapper; an unknown
type yields a per-item failure result. -/
def dispatchBatchJob (backendAdd : String → String → D → JsOptions → Except String Nat)
    (job : BatchJob D) : JsResult :=
  if job.type = "process-data" then queueDataProcessing backendAdd job.data job.options
  else if job.type = "send-email" then queueEmailSend backendAdd job.data job.options
  else if job.type = "process-file" then queueFileProcessing backendAdd job.data job.options
  else if job.type = "send-webhook" then queueWebhookSend backendAdd job.data job.options
  else if job.type = "cleanup-task" then queueCleanupTask backendAdd job.data job.options
  else { success := false, error := some ("Unknown job type: " ++ job.type) }

/-- queueBatchJobs: iterates over the items in order, pushing for each the
pair of its type and its individual enqueue result, and returns the
summary with success true, the per-item results, totalJobs the input
length, and successfulJobs the count of per-item successes. -/
def queueBatchJobs (backendAdd : String → String → D → JsOptions → Except String Nat)
    (jobs : List (BatchJob D)) : BatchSummary :=
  let results := jobs.foldl
    (fun acc job => acc ++ [(job.type, dispatchBatchJob backendAdd job)]) []
  { success := true, results := results, totalJobs := jobs.length,
    successfulJobs := (results.filter (fun r => r.2.success)).length }

end WorkerService

namespace Backend

/-- The lifecycle states of a job inside the queue backend. -/
inductive JobState where
  | waiting
  | active
  | completed
  | failed
deriving DecidableEq, Repr

/-- Modelled from the spec: the retry-relevant record of a job inside the
Queue Backend.  The backend itself (the third-party bull library) is not
among the sources of this repository; the spec collapses it to its
capability contract, whose retry clause reads: on failed, if attemptsMade
is below maxAttempts, the backend re-queues after the backoff interval,
incrementing attemptsMade, returning to waiting; otherwise terminal
failed; and a processor that always fails results in exactly maxAttempts
processing attempts with attemptsMade equal to maxAttempts at the end. -/
structure BackendJob where
  attemptsMade : Nat
  maxAttempts : Nat
  state : JobState
deriving DecidableEq, Repr

/-- Modelled from the spec: a freshly enqueued job that has become
eligible: no attempts made yet, in the waiting state. -/
def freshJob (maxAttempts : Nat) : BackendJob :=
  { attemptsMade := 0, maxAttempts := maxAttempts, state := JobState.waiting }

/-- Modelled from the spec: one backend scheduling round in which the
registered processor fails.  A waiting job is claimed and processed (one
processor invocation, counted by attemptsMade); on the failure the
backend re-queues it to waiting while the made attempts are still below
maxAttempts, and otherwise leaves it terminally failed.  A job not in the
waiting state is never handed to a processor, so the round leaves it
unchanged. -/
def failStep (j : BackendJob) : BackendJob :=
  if j.state = JobState.waiting then
    let a := j.attemptsMade + 1
    if a < j.maxAttempts then
      { j with attemptsMade := a, state := JobState.waiting }
    else
      { j with attemptsMade := a, state := JobState.failed }
  else j

/-- Modelled from the spec: n backend scheduling rounds against an
always-failing processor. -/
def runFailing (j : BackendJob) : Nat → BackendJob
  | 0 => j
  | n + 1 => failStep (runFailing j n)

end Backend

namespace QueueService

variable {P D : Type}

/-- addWhatsAppMessageJob: forwards to addJob on the configured queue with
job type whatsapp-message and an options object spreading the caller
options over priority 5. -/
def addWhatsAppMessageJob (s : State P D) (messageData : D) (options : JsOptions)
    (backendFailure : Option String) : JsResult × State P D :=
  addJob s config.queue.name ("whatsapp-message") messageData
    (JsOptions.spread { priority := some 5 } options) backendFailure

/-- addWhatsAppMediaJob: job type whatsapp-media, default priority 3. -/
def addWhatsAppMediaJob (s : State P D) (mediaData : D) (options : JsOptions)
    (backendFailure : Option String) : JsResult × State P D :=
  addJob s config.queue.name ("whatsapp-media") mediaData
    (JsOptions.spread { priority := some 3 } options) backendFailure

/-- addWebhookJob: job type webhook, default priority 7. -/
def addWebhookJob (s : State P D) (webhookData : D) (options : JsOptions)
    (backendFailure : Option String) : JsResult × State P D :=
  addJob s config.queue.name ("webhook") webhookData
    (JsOptions.spread { priority := some 7 } options) backendFailure

/-- addDataSyncJob: job type data-sync, default priority 2. -/
def addDataSyncJob (s : State P D) (syncData : D) (options : JsOptions)
    (backendFailure : Option String) : JsResult × State P D :=
  addJob s config.queue.name ("data-sync") syncData
    (JsOptions.spread { priority := some 2 } options) backendFailure

end QueueService

/-- Well-formedness of the queue registry: names are stored at most once
and every stored handle had its event observers wired exactly once.  This
holds of the freshly constructed service (the registry starts empty) and
is preserved by getQueue. -/
def QueueRegistryWF {P D : Type} (s : QueueService.State P D) : Prop :=
  (s.queues.map Prod.fst).Nodup ∧ ∀ p ∈ s.queues, p.2.listenerWirings = 1

instance {P D : Type} (s : QueueService.State P D) :
    Decidable (QueueRegistryWF s) := by
  unfold QueueRegistryWF
  infer_instance

/-- A successful association lookup means the pair is in the list. -/
theorem assocLookup_some_mem {β : Type} {l : List (String × β)} {k : String} {v : β}
    (h : assocLookup l k = some v) : (k, v) ∈ l := by
  induction l with
  | nil => simp [assocLookup] at h
  | cons p t ih =>
      obtain ⟨k1, v1⟩ := p
      by_cases hk : k1 = k
      · subst hk
        simp [assocLookup] at h
        subst h
        exact List.mem_cons_self _ _
      · simp [assocLookup, hk] at h
        exact List.mem_cons_of_mem _ (ih h)

/-- A failed association lookup means the key is absent from the keys. -/
theorem assocLookup_none_keys {β : Type} {l : List (String × β)} {k : String}
    (h : assocLookup l k = none) : k ∉ l.map Prod.fst := by
  induction l with
  | nil => simp
  | cons p t ih =>
      obtain ⟨k1, v1⟩ := p
      by_cases hk : k1 = k
      · simp [assocLookup, hk] at h
      · simp [assocLookup, hk] at h
        simp [hk, ih h]
        exact fun he => hk he.symm

/-- Looking the key up right after a Map.set finds the stored value. -/
theorem mapSet_lookup {β : Type} (l : List (String × β)) (k : String) (v : β) :
    assocLookup (mapSet l k v) k = some v := by
  induction l with
  | nil => simp [mapSet, assocLookup]
  | cons p t ih =>
      obtain ⟨k1, v1⟩ := p
      by_cases hk : k1 = k
      · simp [mapSet, hk, assocLookup]
      · simp [mapSet, hk, assocLookup, ih]

/-- Map.set leaves the key list unchanged when the key was present and
appends the key when it was not. -/
theorem mapSet_keys {β : Type} (l : List (String × β)) (k : String) (v : β) :
    (mapSet l k v).map Prod.fst =
      if k ∈ l.map Prod.fst then l.map Prod.fst else l.map Prod.fst ++ [k] := by
  induction l with
  | nil => simp [mapSet]
  | cons p t ih =>
      obtain ⟨k1, v1⟩ := p
      by_cases hk : k1 = k
      · subst hk
        simp [mapSet]
      · simp only [mapSet, if_neg hk, List.map_cons, ih]
        by_cases hm : k ∈ t.map Prod.fst
        · simp [hm, Ne.symm hk]
        · simp [hm, Ne.symm hk]

/-- Map.set preserves distinctness of the stored keys. -/
theorem mapSet_nodup {β : Type} (l : List (String × β)) (k : String) (v : β)
    (h : (l.map Prod.fst).Nodup) : ((mapSet l k v).map Prod.fst).Nodup := by
  rw [mapSet_keys]
  by_cases hm : k ∈ l.map Prod.fst
  · simpa [hm] using h
  · simp [hm, List.nodup_append, h]

/-- Folding an accumulator-append over a list is mapping it. -/
theorem foldl_push_eq_map {α β : Type} (f : α → β) (l : List α) (acc : List β) :
    l.foldl (fun a x => a ++ [f x]) acc = acc ++ l.map f := by
  induction l generalizing acc with
  | nil => simp
  | cons h t ih => simp [List.foldl, ih]

/-- getQueue only touches the registry and the creation counter: every
other field of the service state is unchanged. -/
theorem getQueue_preserves {P D : Type} (s : QueueService.State P D) (n : String) :
    ((QueueService.getQueue s n).2).processors = s.processors ∧
    ((QueueService.getQueue s n).2).backendRegs = s.backendRegs ∧
    ((QueueService.getQueue s n).2).jobs = s.jobs ∧
    ((QueueService.getQueue s n).2).nextJobId = s.nextJobId ∧
    ((QueueService.getQueue s n).2).isConnected = s.isConnected ∧
    ((QueueService.getQueue s n).2).redisReady = s.redisReady := by
  unfold QueueService.getQueue
  cases assocLookup s.queues n <;> simp

/-- Before the attempts are exhausted, each failing round re-queues the
job to waiting with one more attempt made. -/
theorem runFailing_below (k i : Nat) (h : i < k) :
    Backend.runFailing (Backend.freshJob k) i =
      { attemptsMade := i, maxAttempts := k, state := Backend.JobState.waiting } := by
  induction i with
  | zero => rfl
  | succ j ih =>
      have hj : j < k := Nat.lt_of_succ_lt h
      simp only [Backend.runFailing, ih hj, Backend.failStep]
      simp [Nat.lt_of_succ_lt, h]

/-- A job in its terminal failed state is never handed to the processor
again: a further round changes nothing. -/
theorem failStep_of_failed (j : Backend.BackendJob)
    (h : j.state = Backend.JobState.failed) : Backend.failStep j = j := by
  simp [Backend.failStep, h]

/-- After exactly maxAttempts failing rounds the job is terminally failed
with attemptsMade equal to maxAttempts. -/
theorem runFailing_exhausts (k : Nat) (hk : 1 ≤ k) :
    Backend.runFailing (Backend.freshJob k) k =
      { attemptsMade := k, maxAttempts := k, state := Backend.JobState.failed } := by
  obtain ⟨j, rfl⟩ : ∃ j, k = j + 1 := ⟨k - 1, (Nat.succ_pred_eq_of_pos hk).symm⟩
  simp only [Backend.runFailing, runFailing_below (j + 1) j (Nat.lt_succ_self j),
    Backend.failStep]
  simp

/-- Any number of rounds past the exhaustion point leaves the terminally
failed job unchanged. -/
theorem runFailing_stable (k m : Nat) (hk : 1 ≤ k) (hm : k ≤ m) :
    Backend.runFailing (Backend.freshJob k) m =
      { attemptsMade := k, maxAttempts := k, state := Backend.JobState.failed } := by
  obtain ⟨d, rfl⟩ := Nat.exists_eq_add_of_le hm
  clear hm
  induction d with
  | zero => simpa using runFailing_exhausts k hk
  | succ e ih =>
      rw [Nat.add_succ]
      simp only [Backend.runFailing]
      rw [ih]
      exact failStep_of_failed _ rfl

/-- C1: for a job enqueued with maxAttempts equal to k (k at least 1) —
addJob forwards a caller-supplied attempts value of k to the backend
unchanged — an always-failing processor produces, round by round: before
the k-th failure the backend re-queues the job to waiting with
attemptsMade incremented; after the k-th failure the job is terminally
failed with attemptsMade equal to k; and every later round leaves it
unchanged, so the processor undergoes exactly k invocations and is never
invoked for the job again. -/
theorem claim_C1_always_failing_exhausts_attempts (k : Nat) (hk : 1 ≤ k)
    (options : JsOptions) (ho : options.attempts = some k) :
    (JsOptions.spread QueueService.addJobDefaultOptions options).attempts = some k ∧
    (∀ i, i < k → Backend.runFailing (Backend.freshJob k) i =
      { attemptsMade := i, maxAttempts := k, state := Backend.JobState.waiting }) ∧
    Backend.runFailing (Backend.freshJob k) k =
      { attemptsMade := k, maxAttempts := k, state := Backend.JobState.failed } ∧
    (∀ m, k ≤ m → Backend.runFailing (Backend.freshJob k) m =
      { attemptsMade := k, maxAttempts := k, state := Backend.JobState.failed }) := by
  refine ⟨?_, fun i hi => runFailing_below k i hi, runFailing_exhausts k hk,
    fun m hm => runFailing_stable k m hk hm⟩
  simp [JsOptions.spread, ho, Option.orElse]

/-- C1 witness: the statement at k equal to 2 with a concrete options
object carrying attempts 2. -/
theorem claim_C1_always_failing_exhausts_attempts_witness :
    (1 ≤ 2) ∧ ({ attempts := some 2 } : JsOptions).attempts = some 2 ∧
    Backend.runFailing (Backend.freshJob 2) 2 =
      { attemptsMade := 2, maxAttempts := 2, state := Backend.JobState.failed } :=
  ⟨by decide, rfl,
   (claim_C1_always_failing_exhausts_attempts 2 (by decide)
     { attempts := some 2 } rfl).2.2.1⟩

/-- C2 counterexample: in a service state where isConnected is true but
the isReady flag of the Redis client is false, isHealthy returns false, yet addJob
proceeds to enqueue and returns success, because the source guards on the
isConnected flag alone rather than on isHealthy. -/
theorem claim_C2_counterexample :
    QueueService.isHealthy
      ({ isConnected := true, redisReady := false } : QueueService.State Nat Nat)
      = false ∧
    (QueueService.addJob
      ({ isConnected := true, redisReady := false } : QueueService.State Nat Nat)
      ("background-tasks") ("process-data") 0 {} none).1.success = true ∧
    (QueueService.addJob
      ({ isConnected := true, redisReady := false } : QueueService.State Nat Nat)
      ("background-tasks") ("process-data") 0 {} none).2.jobs ≠ [] := by
  refine ⟨rfl, rfl, ?_⟩
  decide

/-- C2 (amended): calling addJob while the backend is marked disconnected
(the isConnected flag, the part of isHealthy the method actually checks,
is false) returns a failure result carrying the error message, leaves the
state unchanged (no job enqueued), and never throws — the connectivity
throw is converted by the catch into the returned failure. -/
theorem claim_C2_addJob_disconnected_fails_fast {P D : Type}
    (s : QueueService.State P D) (queueName jobType : String) (data : D)
    (options : JsOptions) (backendFailure : Option String)
    (h : s.isConnected = false) :
    QueueService.addJob s queueName jobType data options backendFailure =
      ({ success := false, error := some ("Redis is not connected") }, s) := by
  simp [QueueService.addJob, h]

/-- C2 witness: the amended statement at the freshly constructed service
state, whose isConnected flag is false. -/
theorem claim_C2_addJob_disconnected_fails_fast_witness :
    QueueService.addJob ({} : QueueService.State Nat Nat)
        ("background-tasks") ("process-data") 0 {} none =
      ({ success := false, error := some ("Redis is not connected") },
       ({} : QueueService.State Nat Nat)) :=
  claim_C2_addJob_disconnected_fails_fast {} ("background-tasks")
    ("process-data") 0 {} none rfl

/-- C4: the function processQueue registers with the backend wraps the
processor so that a returned result is passed through unchanged and a
thrown error is rethrown as the same error (the logging between does not
alter the value), so the retry machinery of the backend engages. -/
theorem claim_C4_wrapper_transparent {J E R : Type}
    (processor : J → Except E R) (job : J) :
    QueueService.processWrapper processor job = processor job := by
  unfold QueueService.processWrapper
  cases processor job <;> rfl

/-- C6: shutdown is idempotent from any state: the first call always
leaves isRunning false, and a second call in succession is a no-op that
performs no collaborator call (in particular no duplicate close) and
returns the same end state, whatever the collaborators did on either
call; both calls return normally since the catch in the body swallows every
collaborator error. -/
theorem claim_C6_shutdown_idempotent (e1 e2 : WhatsAppWorker.ShutdownEnv)
    (w : WhatsAppWorker.WorkerState) :
    ((WhatsAppWorker.shutdown e1 w).1).isRunning = false ∧
    WhatsAppWorker.shutdown e2 (WhatsAppWorker.shutdown e1 w).1 =
      ((WhatsAppWorker.shutdown e1 w).1, []) := by
  cases hw : w.isRunning <;>
    simp [WhatsAppWorker.shutdown, hw]

/-- A lookup hit makes getQueue return the stored handle with the state
unchanged. -/
theorem getQueue_hit {P D : Type} (s : QueueService.State P D) (n : String)
    (q : QueueHandle) (h : assocLookup s.queues n = some q) :
    QueueService.getQueue s n = (q, s) := by
  unfold QueueService.getQueue
  rw [h]

/-- C3: getQueue is an idempotent lookup-or-create: under the registry
invariant (names stored at most once, observers wired exactly once, true
of the fresh service), a repeat call with the same name returns the very
handle of the first call and leaves the state unchanged, the handle is
stored in the registry under the name with its event observers wired
exactly once, and the invariant is preserved, so at most one queue
instance exists per name. -/
theorem claim_C3_getQueue_memoized {P D : Type}
    (s : QueueService.State P D) (queueName : String) (h : QueueRegistryWF s) :
    (QueueService.getQueue (QueueService.getQueue s queueName).2 queueName).1 =
      (QueueService.getQueue s queueName).1 ∧
    (QueueService.getQueue (QueueService.getQueue s queueName).2 queueName).2 =
      (QueueService.getQueue s queueName).2 ∧
    assocLookup ((QueueService.getQueue s queueName).2).queues queueName =
      some (QueueService.getQueue s queueName).1 ∧
    ((QueueService.getQueue s queueName).1).listenerWirings = 1 ∧
    QueueRegistryWF (QueueService.getQueue s queueName).2 := by
  cases hl : assocLookup s.queues queueName with
  | some q =>
      have hq := getQueue_hit s queueName q hl
      refine ⟨by simp [hq], by simp [hq], by simp [hq, hl], ?_, by simpa [hq] using h⟩
      have hw := h.2 _ (assocLookup_some_mem hl)
      simpa [hq] using hw
  | none =>
      have hnot := assocLookup_none_keys hl
      have hq : QueueService.getQueue s queueName =
          ({ name := queueName, creationIndex := s.nextQueueIndex,
             listenerWirings := 1 },
           { s with
               queues := (queueName,
                 { name := queueName, creationIndex := s.nextQueueIndex,
                   listenerWirings := 1 }) :: s.queues,
               nextQueueIndex := s.nextQueueIndex + 1 }) := by
        unfold QueueService.getQueue
        rw [hl]
        rfl
      have hlook : assocLookup ((QueueService.getQueue s queueName).2).queues queueName
          = some (QueueService.getQueue s queueName).1 := by
        rw [hq]
        simp [assocLookup]
      have hq2 := getQueue_hit _ _ _ hlook
      refine ⟨by rw [hq2], by rw [hq2], hlook, by rw [hq], ?_, ?_⟩
      · rw [hq]
        simp only [List.map_cons]
        exact List.nodup_cons.mpr ⟨hnot, h.1⟩
      · rw [hq]
        intro p hp
        rcases List.mem_cons.mp hp with hp1 | hp2
        · rw [hp1]
        · exact h.2 _ hp2

/-- C3 witness: the statement at the fresh service state and the
configured default queue name. -/
theorem claim_C3_getQueue_memoized_witness :
    QueueRegistryWF ({} : QueueService.State Nat Nat) ∧
    ((QueueService.getQueue ({} : QueueService.State Nat Nat)
        config.queue.name).1).listenerWirings = 1 :=
  ⟨by decide,
   (claim_C3_getQueue_memoized {} config.queue.name (by decide)).2.2.2.1⟩

/-- C5 counterexample: with the step-1 probe succeeding and the queue
backend initialization failing, initialize aborts and returns false with
isRunning false, but the shutdown sequence does not run: the executed
trace is exactly the probe and the queue initialization attempt, with
none of the teardown calls — shutdown is invoked from the catch, but
isRunning is still false at that point, so it returns immediately —
refuting the part of the claim that says the failure runs the shutdown
sequence. -/
theorem claim_C5_counterexample :
    WhatsAppWorker.initWorker
      { webserviceConnected := true, queueInitialized := false,
        apiStarted := true, whatsappInitialized := true }
      { isRunning := false } =
      (false, { isRunning := false },
       [WhatsAppWorker.WorkerAction.testConnection,
        WhatsAppWorker.WorkerAction.queueInit]) ∧
    WhatsAppWorker.WorkerAction.notifyShutdown ∉
      (WhatsAppWorker.initWorker
        { webserviceConnected := true, queueInitialized := false,
          apiStarted := true, whatsappInitialized := true }
        { isRunning := false }).2.2 ∧
    WhatsAppWorker.WorkerAction.queueShutdown ∉
      (WhatsAppWorker.initWorker
        { webserviceConnected := true, queueInitialized := false,
          apiStarted := true, whatsappInitialized := true }
        { isRunning := false }).2.2 := by
  refine ⟨rfl, ?_, ?_⟩ <;> decide

/-- C5 (amended): in the initialize sequence, failure of the step-1
outbound-channel probe is non-fatal — all remaining steps run and the
worker ends with isRunning true — whereas failure of the queue backend
initialization, of the control endpoint start or of the messaging client
initialization aborts all remaining steps and makes initialize return
false with isRunning left false; shutdown is invoked from the catch but,
isRunning being still false at that point, it performs no teardown step. -/
theorem claim_C5_init_fatal_vs_nonfatal
    (env : WhatsAppWorker.InitEnv) (w : WhatsAppWorker.WorkerState)
    (hw : w.isRunning = false) :
    (env.queueInitialized = false →
      WhatsAppWorker.initWorker env w =
        (false, w,
         [WhatsAppWorker.WorkerAction.testConnection,
          WhatsAppWorker.WorkerAction.queueInit])) ∧
    (env.queueInitialized = true → env.apiStarted = false →
      WhatsAppWorker.initWorker env w =
        (false, w,
         [WhatsAppWorker.WorkerAction.testConnection,
          WhatsAppWorker.WorkerAction.queueInit,
          WhatsAppWorker.WorkerAction.apiStart])) ∧
    (env.queueInitialized = true → env.apiStarted = true →
     env.whatsappInitialized = false →
      WhatsAppWorker.initWorker env w =
        (false, w,
         [WhatsAppWorker.WorkerAction.testConnection,
          WhatsAppWorker.WorkerAction.queueInit,
          WhatsAppWorker.WorkerAction.apiStart,
          WhatsAppWorker.WorkerAction.whatsappInit])) ∧
    (env.webserviceConnected = false → env.queueInitialized = true →
     env.apiStarted = true → env.whatsappInitialized = true →
      WhatsAppWorker.initWorker env w =
        (true, { isRunning := true },
         [WhatsAppWorker.WorkerAction.testConnection,
          WhatsAppWorker.WorkerAction.queueInit,
          WhatsAppWorker.WorkerAction.apiStart,
          WhatsAppWorker.WorkerAction.whatsappInit,
          WhatsAppWorker.WorkerAction.setupProcessors,
          WhatsAppWorker.WorkerAction.startPeriodicTasks])) := by
  have hsd : WhatsAppWorker.shutdown env.sd w = (w, []) := by
    simp [WhatsAppWorker.shutdown, hw]
  refine ⟨fun h1 => ?_, fun h1 h2 => ?_, fun h1 h2 h3 => ?_,
    fun h0 h1 h2 h3 => ?_⟩ <;>
    simp [WhatsAppWorker.initWorker, hsd, h1, *]

/-- C5 witness: the amended statement and its first implication at a
concrete environment in which the queue backend fails to initialize. -/
theorem claim_C5_init_fatal_vs_nonfatal_witness :
    WhatsAppWorker.initWorker
      { webserviceConnected := false, queueInitialized := false,
        apiStarted := false, whatsappInitialized := false }
      { isRunning := false } =
      (false, { isRunning := false },
       [WhatsAppWorker.WorkerAction.testConnection,
        WhatsAppWorker.WorkerAction.queueInit]) :=
  (claim_C5_init_fatal_vs_nonfatal
    { webserviceConnected := false, queueInitialized := false,
      apiStarted := false, whatsappInitialized := false }
    { isRunning := false } rfl).1 rfl

/-- With the backend connected and accepting, addJob appends exactly one
job whose effective options are the caller options spread over the
addJob defaults. -/
theorem addJob_jobs {P D : Type} (s : QueueService.State P D)
    (queueName jobType : String) (data : D) (options : JsOptions)
    (h : s.isConnected = true) :
    (QueueService.addJob s queueName jobType data options none).2.jobs =
      s.jobs ++
        [{ queueName := queueName, jobType := jobType, data := data,
           options := JsOptions.spread QueueService.addJobDefaultOptions options,
           jobId := s.nextJobId }] := by
  obtain ⟨_, _, hj, hn, _, _⟩ := getQueue_preserves s queueName
  simp [QueueService.addJob, h, hj, hn]

/-- C7: when the backend is connected, addJob enqueues the job with
effective options equal to the caller options spread over the queue
defaults: each caller-supplied field among priority, delay, attempts and
backoff wins, each omitted field takes the default (priority 0, delay 0,
attempts config.worker.maxRetries, exponential backoff with base delay
config.worker.retryDelay). -/
theorem claim_C7_addJob_merges_options {P D : Type}
    (s : QueueService.State P D) (queueName jobType : String) (data : D)
    (options : JsOptions) (h : s.isConnected = true) :
    (QueueService.addJob s queueName jobType data options none).2.jobs =
      s.jobs ++
        [{ queueName := queueName, jobType := jobType, data := data,
           options := JsOptions.spread QueueService.addJobDefaultOptions options,
           jobId := s.nextJobId }] ∧
    (JsOptions.spread QueueService.addJobDefaultOptions options).priority =
      some (options.priority.getD 0) ∧
    (JsOptions.spread QueueService.addJobDefaultOptions options).delay =
      some (options.delay.getD 0) ∧
    (JsOptions.spread QueueService.addJobDefaultOptions options).attempts =
      some (options.attempts.getD config.worker.maxRetries) ∧
    (JsOptions.spread QueueService.addJobDefaultOptions options).backoff =
      some (options.backoff.getD
        { type := "exponential", delay := config.worker.retryDelay }) := by
  refine ⟨addJob_jobs s queueName jobType data options h, ?_, ?_, ?_, ?_⟩
  · cases hx : options.priority <;>
      simp [JsOptions.spread, QueueService.addJobDefaultOptions, hx, Option.orElse]
  · cases hx : options.delay <;>
      simp [JsOptions.spread, QueueService.addJobDefaultOptions, hx, Option.orElse]
  · cases hx : options.attempts <;>
      simp [JsOptions.spread, QueueService.addJobDefaultOptions, hx, Option.orElse]
  · cases hx : options.backoff <;>
      simp [JsOptions.spread, QueueService.addJobDefaultOptions, hx, Option.orElse]

/-- C7 witness: the statement at a connected state with a caller-supplied
priority and every other field omitted. -/
theorem claim_C7_addJob_merges_options_witness :
    (JsOptions.spread QueueService.addJobDefaultOptions
        ({ priority := some 9 } : JsOptions)).priority = some 9 ∧
    (JsOptions.spread QueueService.addJobDefaultOptions
        ({ priority := some 9 } : JsOptions)).attempts =
      some config.worker.maxRetries :=
  ⟨(claim_C7_addJob_merges_options
      ({ isConnected := true } : QueueService.State Nat Nat)
      ("background-tasks") ("process-data") 0 { priority := some 9 } rfl).2.1,
   (claim_C7_addJob_merges_options
      ({ isConnected := true } : QueueService.State Nat Nat)
      ("background-tasks") ("process-data") 0 { priority := some 9 } rfl).2.2.2.1⟩

/-- C8: when the caller omits a priority, the per-job-type convenience
wrappers fix default priorities — webhook relay 7, message relay 5, media
relay 3, data-sync relay (the general data-processing lane named by the
spec) 2 on the worker side, and on the WorkerService side webhook send 7,
email send 5, file processing 3 and cleanup 1 — so webhook is above
message, message above media, media within one unit of data-sync, and
both media and data-sync above cleanup, under the stated convention that
a higher priority value is processed first. -/
theorem claim_C8_default_priorities {P D : Type}
    (s : QueueService.State P D) (d : D) (options : JsOptions)
    (h : s.isConnected = true) (hj : s.jobs = [])
    (hp : options.priority = none) :
    ((QueueService.addWebhookJob s d options none).2.jobs.map
        (fun j => j.options.priority)) = [some 7] ∧
    ((QueueService.addWhatsAppMessageJob s d options none).2.jobs.map
        (fun j => j.options.priority)) = [some 5] ∧
    ((QueueService.addWhatsAppMediaJob s d options none).2.jobs.map
        (fun j => j.options.priority)) = [some 3] ∧
    ((QueueService.addDataSyncJob s d options none).2.jobs.map
        (fun j => j.options.priority)) = [some 2] ∧
    (JsOptions.spread RootQueueService.addJobDefaultOptions
        (WorkerService.webhookSendOptions options)).priority = some 7 ∧
    (JsOptions.spread RootQueueService.addJobDefaultOptions
        (WorkerService.emailSendOptions options)).priority = some 5 ∧
    (JsOptions.spread RootQueueService.addJobDefaultOptions
        (WorkerService.fileProcessingOptions options)).priority = some 3 ∧
    (JsOptions.spread RootQueueService.addJobDefaultOptions
        (WorkerService.cleanupTaskOptions options)).priority = some 1 ∧
    ((7 : Int) > 5 ∧ (5 : Int) > 3 ∧ (3 : Int) - 2 ≤ 1 ∧
     (3 : Int) > 1 ∧ (2 : Int) > 1) := by
  refine ⟨?_, ?_, ?_, ?_, ?_, ?_, ?_, ?_, by norm_num⟩
  · simp [QueueService.addWebhookJob, addJob_jobs, h, hj,
      JsOptions.spread, hp, Option.orElse]
  · simp [QueueService.addWhatsAppMessageJob, addJob_jobs, h, hj,
      JsOptions.spread, hp, Option.orElse]
  · simp [QueueService.addWhatsAppMediaJob, addJob_jobs, h, hj,
      JsOptions.spread, hp, Option.orElse]
  · simp [QueueService.addDataSyncJob, addJob_jobs, h, hj,
      JsOptions.spread, hp, Option.orElse]
  · simp [WorkerService.webhookSendOptions, RootQueueService.addJobDefaultOptions,
      JsOptions.spread, hp, Option.orElse, jsOrInt]
  · simp [WorkerService.emailSendOptions, RootQueueService.addJobDefaultOptions,
      JsOptions.spread, hp, Option.orElse, jsOrInt]
  · simp [WorkerService.fileProcessingOptions, RootQueueService.addJobDefaultOptions,
      JsOptions.spread, hp, Option.orElse, jsOrInt]
  · simp [WorkerService.cleanupTaskOptions, RootQueueService.addJobDefaultOptions,
      JsOptions.spread, hp, Option.orElse, jsOrInt]

/-- C8 witness: the statement at a connected empty state with the caller
omitting every option. -/
theorem claim_C8_default_priorities_witness :
    ((QueueService.addWebhookJob
        ({ isConnected := true } : QueueService.State Nat Nat)
        0 {} none).2.jobs.map (fun j => j.options.priority)) = [some 7] :=
  (claim_C8_default_priorities
    ({ isConnected := true } : QueueService.State Nat Nat) 0 {} rfl rfl rfl).1

/-- C9: batch enqueue processes the items sequentially in input order —
the results list is exactly the input list mapped through the per-item
dispatch, pairing the type of each item with its individual enqueue result —
and the summary reports totalJobs equal to the input length,
successfulJobs equal to the number of per-item successes, and overall
success true regardless of per-item failures; an item of unknown type
produces a per-item failure entry, never a failure of the whole batch. -/
theorem claim_C9_batch_summary {D : Type}
    (backendAdd : String → String → D → JsOptions → Except String Nat)
    (jobs : List (WorkerService.BatchJob D)) :
    (WorkerService.queueBatchJobs backendAdd jobs).totalJobs = jobs.length ∧
    (WorkerService.queueBatchJobs backendAdd jobs).results =
      jobs.map (fun job => (job.type, WorkerService.dispatchBatchJob backendAdd job)) ∧
    (WorkerService.queueBatchJobs backendAdd jobs).successfulJobs =
      ((WorkerService.queueBatchJobs backendAdd jobs).results.filter
        (fun r => r.2.success)).length ∧
    (WorkerService.queueBatchJobs backendAdd jobs).success = true ∧
    (∀ job : WorkerService.BatchJob D,
      job.type ∉ (["process-data", "send-email", "process-file",
        "send-webhook", "cleanup-task"] : List String) →
      WorkerService.dispatchBatchJob backendAdd job =
        { success := false,
          error := some ("Unknown job type: " ++ job.type) }) := by
  refine ⟨rfl, ?_, rfl, rfl, ?_⟩
  · simp [WorkerService.queueBatchJobs, foldl_push_eq_map]
  · intro job hm
    simp only [List.mem_cons, List.not_mem_nil, or_false, not_or] at hm
    obtain ⟨h1, h2, h3, h4, h5⟩ := hm
    simp [WorkerService.dispatchBatchJob, h1, h2, h3, h4, h5]

/-- C9 witness: the per-item failure entry for an unknown type, through
the theorem at an always-accepting backend and the empty batch. -/
theorem claim_C9_batch_summary_witness :
    WorkerService.dispatchBatchJob
      (fun (_ : String) (_ : String) (_ : Nat) (_ : JsOptions) => Except.ok 1)
      { type := "bogus-type", data := 0, options := {} } =
      { success := false,
        error := some ("Unknown job type: " ++ "bogus-type") } :=
  (claim_C9_batch_summary (fun _ _ _ _ => Except.ok 1) []).2.2.2.2
    { type := "bogus-type", data := 0, options := {} } (by decide)

/-- processQueue rewrites only the processors Map entry under its key and
appends one registration against the backend. -/
theorem processQueue_processors {P D : Type} (s : QueueService.State P D)
    (queueName jobType : String) (p : P) (c : Nat) :
    (QueueService.processQueue s queueName jobType p c).processors =
      mapSet s.processors (queueName ++ ":" ++ jobType)
        { processor := p, concurrency := c } := by
  obtain ⟨hp, _, _, _, _, _⟩ := getQueue_preserves s queueName
  simp [QueueService.processQueue, hp]

/-- processQueue appends exactly one backend registration per call. -/
theorem processQueue_backendRegs {P D : Type} (s : QueueService.State P D)
    (queueName jobType : String) (p : P) (c : Nat) :
    (QueueService.processQueue s queueName jobType p c).backendRegs =
      s.backendRegs ++ [(queueName, jobType)] := by
  obtain ⟨_, hb, _, _, _, _⟩ := getQueue_preserves s queueName
  simp [QueueService.processQueue, hb]

/-- C10: the processors Map keeps at most one entry per registration key
(distinctness of keys is preserved); a second processQueue call for the
same queue and type silently replaces the stored processor and
concurrency entry — the first call stores the first processor, after the
second only the second is stored — with no error, while each of the two
calls still issues its own registration against the backend. -/
theorem claim_C10_processQueue_replaces {P D : Type}
    (s : QueueService.State P D) (queueName jobType : String)
    (p1 p2 : P) (c1 c2 : Nat) (h : (s.processors.map Prod.fst).Nodup) :
    assocLookup (QueueService.processQueue s queueName jobType p1 c1).processors
        (queueName ++ ":" ++ jobType) =
      some { processor := p1, concurrency := c1 } ∧
    assocLookup (QueueService.processQueue
        (QueueService.processQueue s queueName jobType p1 c1)
        queueName jobType p2 c2).processors (queueName ++ ":" ++ jobType) =
      some { processor := p2, concurrency := c2 } ∧
    ((QueueService.processQueue
        (QueueService.processQueue s queueName jobType p1 c1)
        queueName jobType p2 c2).processors.map Prod.fst).Nodup ∧
    (QueueService.processQueue
        (QueueService.processQueue s queueName jobType p1 c1)
        queueName jobType p2 c2).backendRegs =
      s.backendRegs ++ [(queueName, jobType), (queueName, jobType)] := by
  refine ⟨?_, ?_, ?_, ?_⟩
  · rw [processQueue_processors]
    exact mapSet_lookup _ _ _
  · rw [processQueue_processors, processQueue_processors]
    exact mapSet_lookup _ _ _
  · rw [processQueue_processors, processQueue_processors]
    exact mapSet_nodup _ _ _ (mapSet_nodup _ _ _ h)
  · rw [processQueue_backendRegs, processQueue_backendRegs]
    simp

/-- C10 witness: the replacement statement at the fresh service state
with two distinct processors for the same queue and type. -/
theorem claim_C10_processQueue_replaces_witness :
    assocLookup (QueueService.processQueue
        (QueueService.processQueue ({} : QueueService.State Nat Nat)
          ("background-tasks") ("process-data") 0 1)
        ("background-tasks") ("process-data") 1 2).processors
      ("background-tasks" ++ ":" ++ "process-data") =
      some { processor := 1, concurrency := 2 } :=
  (claim_C10_processQueue_replaces ({} : QueueService.State Nat Nat)
    ("background-tasks") ("process-data") 0 1 1 2 (by decide)).2.1

